import Mathlib

/-!
Verification of the session-and-analytics core of the Exa MCP HTTP server
(`src/http-server.ts`), as a shallow embedding in Lean 4.

Counters are modelled as total functions `String → Int` with default value 0,
mirroring the JavaScript idiom `(m[k] || 0)`.  Machine numbers are modelled as
mathematical integers.  Optional JSON fields are modelled with `Option`.
-/

/-- `MAX_RECENT_CALLS` from the source: the cap of `recentToolCalls`. -/
def MAX_RECENT_CALLS : Nat := 100

/-- One entry of `recentToolCalls` (the object built inside `trackToolCall`). -/
structure RecentCall where
  tool : String
  timestamp : String
  clientIp : String
  userAgent : String
deriving DecidableEq, Repr

/-- The `Analytics` interface of the source.  `Record<string, number>` fields
are modelled as total functions `String → Int` defaulting to 0. -/
@[ext]
structure Analytics where
  serverStartTime : String
  totalRequests : Int
  totalToolCalls : Int
  requestsByMethod : String → Int
  requestsByEndpoint : String → Int
  toolCalls : String → Int
  recentToolCalls : List RecentCall
  clientsByIp : String → Int
  clientsByUserAgent : String → Int
  hourlyRequests : String → Int

/-- The initialisation of the `analytics` global (all counters zero, empty
recent-calls list); `now` stands for `new Date().toISOString()`. -/
def defaultAnalytics (now : String) : Analytics where
  serverStartTime := now
  totalRequests := 0
  totalToolCalls := 0
  requestsByMethod := fun _ => 0
  requestsByEndpoint := fun _ => 0
  toolCalls := fun _ => 0
  recentToolCalls := []
  clientsByIp := fun _ => 0
  clientsByUserAgent := fun _ => 0
  hourlyRequests := fun _ => 0

/-- The JavaScript record update `m[k] = (m[k] || 0) + 1`. -/
def bump (m : String → Int) (key : String) : String → Int :=
  fun k => if k = key then m key + 1 else m k

/-- The inbound-request fields the tracking functions read. -/
structure Req where
  method : String
  xForwardedFor : Option String
  ip : Option String
  userAgent : Option String
deriving DecidableEq, Repr

/-- Client-IP resolution of the source:
`(req.headers[x-forwarded-for])?.split(',')[0]?.trim() || req.ip || 'unknown'`. -/
def resolveClientIp (req : Req) : String :=
  let fromFwd :=
    match req.xForwardedFor with
    | some s => ((s.splitOn ",").headD "").trim
    | none => ""
  if fromFwd ≠ "" then fromFwd
  else
    match req.ip with
    | some i => if i ≠ "" then i else "unknown"
    | none => "unknown"

/-- User-agent resolution of the source:
`(req.headers[user-agent] || 'unknown').substring(0, 50)`. -/
def resolveUserAgent (req : Req) : String :=
  (match req.userAgent with
   | some s => if s = "" then "unknown" else s
   | none => "unknown").take 50

/-- `trackRequest(req, endpoint)`; `now` stands for the current ISO timestamp,
so the hour bucket is `now.take 13` (`substring(0, 13)`). -/
def trackRequest (req : Req) (endpoint : String) (now : String) (a : Analytics) :
    Analytics :=
  { a with
    totalRequests := a.totalRequests + 1
    requestsByMethod := bump a.requestsByMethod req.method
    requestsByEndpoint := bump a.requestsByEndpoint endpoint
    clientsByIp := bump a.clientsByIp (resolveClientIp req)
    clientsByUserAgent := bump a.clientsByUserAgent (resolveUserAgent req)
    hourlyRequests := bump a.hourlyRequests (now.take 13) }

/-- `trackToolCall(toolName, req)`: bump the totals, prepend the new call
(`unshift`), and `pop()` the last entry when the cap is exceeded. -/
def trackToolCall (toolName : String) (req : Req) (now : String) (a : Analytics) :
    Analytics :=
  let call : RecentCall :=
    { tool := toolName
      timestamp := now
      clientIp := resolveClientIp req
      userAgent := resolveUserAgent req }
  let recent := call :: a.recentToolCalls
  { a with
    totalToolCalls := a.totalToolCalls + 1
    toolCalls := bump a.toolCalls toolName
    recentToolCalls :=
      if recent.length > MAX_RECENT_CALLS then recent.dropLast else recent }

/-- The `summary` object of an import payload (optional fields, as in JSON). -/
structure ImportSummary where
  totalRequests : Option Int
  totalToolCalls : Option Int
deriving DecidableEq, Repr

/-- The `breakdown` object of an import payload; each record is carried as its
entry list (`Object.entries`). -/
structure ImportBreakdown where
  byMethod : Option (List (String × Int))
  byEndpoint : Option (List (String × Int))
  byTool : Option (List (String × Int))
deriving DecidableEq, Repr

/-- The `clients` object present in exported snapshots (`GET /analytics`). -/
structure ImportClients where
  byIp : Option (List (String × Int))
  byUserAgent : Option (List (String × Int))
deriving DecidableEq, Repr

/-- The body of `POST /analytics/import`, mirroring the exported snapshot
shape.  The handler only reads `summary` and `breakdown`. -/
structure ImportPayload where
  summary : Option ImportSummary
  breakdown : Option ImportBreakdown
  clients : Option ImportClients
  hourlyRequests : Option (List (String × Int))
deriving DecidableEq, Repr

/-- One merge loop of the import handler:
`for ([k, count] of entries) m[k] = (m[k] || 0) + count`. -/
def mergeEntries (m : String → Int) (entries : List (String × Int)) :
    String → Int :=
  entries.foldl
    (fun acc kv => fun k => if k = kv.1 then acc kv.1 + kv.2 else acc k) m

/-- The merge body of `POST /analytics/import` (after the key check): fold the
payload's `summary` totals and `breakdown` records into the accumulator. -/
def importMerge (a : Analytics) (p : ImportPayload) : Analytics :=
  let a1 :=
    match p.summary with
    | some s =>
        { a with
          totalRequests := a.totalRequests + s.totalRequests.getD 0
          totalToolCalls := a.totalToolCalls + s.totalToolCalls.getD 0 }
    | none => a
  let a2 :=
    match p.breakdown.bind ImportBreakdown.byMethod with
    | some l => { a1 with requestsByMethod := mergeEntries a1.requestsByMethod l }
    | none => a1
  let a3 :=
    match p.breakdown.bind ImportBreakdown.byEndpoint with
    | some l => { a2 with requestsByEndpoint := mergeEntries a2.requestsByEndpoint l }
    | none => a2
  match p.breakdown.bind ImportBreakdown.byTool with
  | some l => { a3 with toolCalls := mergeEntries a3.toolCalls l }
  | none => a3

/-- The full `POST /analytics/import` handler: the import-key guard
`if (expectedKey && importKey !== expectedKey) 403` (`expectedKey` truthy means
set and non-empty), else merge, save and answer 200.  The result is
(status, new accumulator state, whether `saveAnalytics` ran). -/
def analyticsImport (expectedKey importKey : Option String)
    (p : ImportPayload) (a : Analytics) : Nat × Analytics × Bool :=
  if expectedKey.getD "" ≠ "" ∧ importKey ≠ expectedKey then (403, a, false)
  else (200, importMerge a p, true)

/-- Total contribution of an entry list to key `k` (specification-side
measure used to state what the merge loops compute). -/
def sumForKey : List (String × Int) → String → Int
  | [], _ => 0
  | kv :: l, k => (if kv.1 = k then kv.2 else 0) + sumForKey l k

/-- The `summary.totalRequests || 0` read of the handler. -/
def payloadTotalRequests (p : ImportPayload) : Int :=
  (p.summary.bind ImportSummary.totalRequests).getD 0

/-- The `summary.totalToolCalls || 0` read of the handler. -/
def payloadTotalToolCalls (p : ImportPayload) : Int :=
  (p.summary.bind ImportSummary.totalToolCalls).getD 0

/-- The `breakdown?.byMethod` entries (empty when absent). -/
def payloadByMethod (p : ImportPayload) : List (String × Int) :=
  (p.breakdown.bind ImportBreakdown.byMethod).getD []

/-- The `breakdown?.byEndpoint` entries (empty when absent). -/
def payloadByEndpoint (p : ImportPayload) : List (String × Int) :=
  (p.breakdown.bind ImportBreakdown.byEndpoint).getD []

/-- The `breakdown?.byTool` entries (empty when absent). -/
def payloadByTool (p : ImportPayload) : List (String × Int) :=
  (p.breakdown.bind ImportBreakdown.byTool).getD []

/-- The `transports` registry of session ids (`Map<string, Transport>`),
modelled by its key set as a list; the claims below only concern which ids
are registered, never the transport values. -/
def Registry := List String

/-- The GET branch of `app.all('/mcp')`: a falsy (absent or empty) or
unknown `mcp-session-id` answers 400 and leaves the registry alone; a known
id delegates to `transport.handleRequest` (status `none` here, decided by
the transport).  Result: (status set by this branch, registry). -/
def mcpGet (reg : List String) (sessionId : Option String) :
    Option Nat × List String :=
  match sessionId with
  | none => (some 400, reg)
  | some sid =>
      if sid = "" ∨ reg.contains sid = false then (some 400, reg)
      else (none, reg)

/-- The DELETE branch of `app.all('/mcp')`: close and remove the transport
when the truthy session id is registered, then answer 204 unconditionally. -/
def mcpDelete (reg : List String) (sessionId : Option String) :
    Nat × List String :=
  match sessionId with
  | none => (204, reg)
  | some sid =>
      if sid ≠ "" ∧ reg.contains sid = true
      then (204, reg.filter (fun k => k ≠ sid))
      else (204, reg)

/-- `getApiKey(req)`: query parameter `apiKey` when truthy, else header
`x-api-key` when truthy, else `process.env.EXA_API_KEY || ''`.  `none`
covers an absent (or non-string) source. -/
def getApiKey (queryApiKey headerKey envKey : Option String) : String :=
  if queryApiKey.getD "" ≠ "" then queryApiKey.getD ""
  else if headerKey.getD "" ≠ "" then headerKey.getD ""
  else envKey.getD ""

/-- Stated from the spec's words, for comparison with `getApiKey`: of the
sources in precedence order, the first present and non-empty one wins. -/
def firstNonEmpty : List (Option String) → Option String
  | [] => none
  | some s :: rest => if s ≠ "" then some s else firstNonEmpty rest
  | none :: rest => firstNonEmpty rest

/-- The spec-side key resolution: first non-empty of query parameter,
header, environment default (empty string when all are empty or absent). -/
def getApiKeySpec (queryApiKey headerKey envKey : Option String) : String :=
  (firstNonEmpty [queryApiKey, headerKey, envKey]).getD ""

/-- One entry of the `availableTools` registry. -/
structure ToolInfo where
  name : String
  description : String
  enabled : Bool
deriving DecidableEq, Repr

/-- The `availableTools` record of the source (all eight tools enabled by
default). -/
def availableTools (toolId : String) : Option ToolInfo :=
  if toolId = "web_search_exa" then
    some ⟨"Web Search (Exa)", "Real-time web search using Exa AI", true⟩
  else if toolId = "get_code_context_exa" then
    some ⟨"Code Context Search",
      "Search for code snippets, examples, and documentation from open source repositories", true⟩
  else if toolId = "deep_search_exa" then
    some ⟨"Deep Search (Exa)",
      "Advanced web search with query expansion and high-quality summaries", true⟩
  else if toolId = "crawling_exa" then
    some ⟨"Web Crawling", "Extract content from specific URLs", true⟩
  else if toolId = "deep_researcher_start" then
    some ⟨"Deep Researcher Start", "Start a comprehensive AI research task", true⟩
  else if toolId = "deep_researcher_check" then
    some ⟨"Deep Researcher Check", "Check status and retrieve results of research task", true⟩
  else if toolId = "linkedin_search_exa" then
    some ⟨"LinkedIn Search", "Search LinkedIn profiles and companies", true⟩
  else if toolId = "company_research_exa" then
    some ⟨"Company Research", "Research companies and organizations", true⟩
  else none

/-- The ids of the `availableTools` record, in source order. -/
def availableToolIds : List String :=
  ["web_search_exa", "get_code_context_exa", "deep_search_exa", "crawling_exa",
   "deep_researcher_start", "deep_researcher_check", "linkedin_search_exa",
   "company_research_exa"]

/-- The `ENABLED_TOOLS` parsing of `createMcpServer`: a truthy env value is
split on commas, trimmed, and empty pieces dropped; otherwise the allow-list
stays unset. -/
def parseEnabledTools (enabledToolsEnv : Option String) : Option (List String) :=
  match enabledToolsEnv with
  | some s =>
      if s ≠ "" then
        some (((s.splitOn ",").map String.trim).filter (fun t => t.length > 0))
      else none
  | none => none

/-- `shouldRegisterTool` of `createMcpServer`: a configured non-empty
allow-list is authoritative; otherwise the tool's own `enabled` flag, with
`false` for unknown ids (`?? false`). -/
def shouldRegisterTool (enabledTools : Option (List String)) (toolId : String) :
    Bool :=
  match enabledTools with
  | some ts =>
      if ts.length > 0 then ts.contains toolId
      else ((availableTools toolId).map ToolInfo.enabled).getD false
  | none => ((availableTools toolId).map ToolInfo.enabled).getD false

/-- `saveAnalytics()`: the durable file holds the whole JSON document of the
in-memory snapshot, rewritten wholesale; its content is the snapshot itself. -/
def saveAnalytics (a : Analytics) : Analytics := a

/-- `loadAnalytics()`: when a file is present, adopt every stored field,
with `serverStartTime` re-defaulted to `now` only when falsy
(`loaded.serverStartTime || new Date().toISOString()`); with no file the
freshly defaulted in-memory state `fresh` stays. -/
def loadAnalytics (file : Option Analytics) (now : String) (fresh : Analytics) :
    Analytics :=
  match file with
  | some loaded =>
      { loaded with
        serverStartTime :=
          if loaded.serverStartTime ≠ "" then loaded.serverStartTime else now }
  | none => fresh

/-- Folding a sequence of `trackToolCall` events (tool name, request, time)
over the accumulator. -/
def applyToolCalls (a : Analytics) (events : List (String × Req × String)) :
    Analytics :=
  events.foldl (fun acc e => trackToolCall e.1 e.2.1 e.2.2 acc) a

/-- Every counter of the snapshot is non-negative (the spec's invariant). -/
def CountersNonNeg (a : Analytics) : Prop :=
  0 ≤ a.totalRequests ∧ 0 ≤ a.totalToolCalls ∧
  (∀ k, 0 ≤ a.requestsByMethod k) ∧ (∀ k, 0 ≤ a.requestsByEndpoint k) ∧
  (∀ k, 0 ≤ a.toolCalls k) ∧ (∀ k, 0 ≤ a.clientsByIp k) ∧
  (∀ k, 0 ≤ a.clientsByUserAgent k) ∧ (∀ k, 0 ≤ a.hourlyRequests k)

/-- Every counter value carried by an import payload is non-negative. -/
def PayloadNonNeg (p : ImportPayload) : Prop :=
  0 ≤ payloadTotalRequests p ∧ 0 ≤ payloadTotalToolCalls p ∧
  (∀ kv ∈ payloadByMethod p, 0 ≤ kv.2) ∧
  (∀ kv ∈ payloadByEndpoint p, 0 ≤ kv.2) ∧
  (∀ kv ∈ payloadByTool p, 0 ≤ kv.2)

/-- A request used in concrete evaluations. -/
def req0 : Req :=
  { method := "POST", xForwardedFor := none, ip := some "127.0.0.1",
    userAgent := some "curl/8.4.0" }

/-- A recent-call entry used in concrete evaluations. -/
def call0 : RecentCall :=
  { tool := "web_search_exa", timestamp := "2026-02-03T04:05:06.000Z",
    clientIp := "127.0.0.1", userAgent := "curl/8.4.0" }

/-- An accumulator whose recent-calls list is exactly at the cap. -/
def a100 : Analytics :=
  { defaultAnalytics "2026-01-01T00:00:00.000Z" with
    recentToolCalls := List.replicate 100 call0 }

/-- A payload whose only counters are client-IP, user-agent and hour-bucket
counts (exactly the families an exported snapshot carries there). -/
def clientsOnlyPayload : ImportPayload :=
  { summary := none
    breakdown := none
    clients := some { byIp := some [("203.0.113.7", 5)]
                      byUserAgent := some [("curl/8.4.0", 4)] }
    hourlyRequests := some [("2026-02-03T04", 3)] }

/-- A payload carrying a negative total-requests counter. -/
def negPayload : ImportPayload :=
  { summary := some { totalRequests := some (-1), totalToolCalls := none }
    breakdown := none, clients := none, hourlyRequests := none }

/-- A payload carrying a single positive total-requests counter. -/
def onePayload : ImportPayload :=
  { summary := some { totalRequests := some 1, totalToolCalls := none }
    breakdown := none, clients := none, hourlyRequests := none }

theorem mergeEntries_apply (l : List (String × Int)) (m : String → Int)
    (k : String) : mergeEntries m l k = m k + sumForKey l k := by
  induction l generalizing m with
  | nil => simp [mergeEntries, sumForKey]
  | cons kv l ih =>
      show mergeEntries (fun x => if x = kv.1 then m kv.1 + kv.2 else m x) l k
            = m k + sumForKey (kv :: l) k
      rw [ih]
      by_cases hk : k = kv.1
      · subst hk; simp [sumForKey]; omega
      · have hk2 : kv.1 ≠ k := fun h => hk h.symm
        simp [sumForKey, hk, hk2]

@[simp]
theorem mergeEntries_nil (m : String → Int) : mergeEntries m [] = m := rfl

/-- Normal form of the import merge: each counter family independently
receives the payload's contribution. -/
theorem importMerge_eq (a : Analytics) (p : ImportPayload) :
    importMerge a p =
      { a with
        totalRequests := a.totalRequests + payloadTotalRequests p
        totalToolCalls := a.totalToolCalls + payloadTotalToolCalls p
        requestsByMethod := mergeEntries a.requestsByMethod (payloadByMethod p)
        requestsByEndpoint := mergeEntries a.requestsByEndpoint (payloadByEndpoint p)
        toolCalls := mergeEntries a.toolCalls (payloadByTool p) } := by
  obtain ⟨s, b, c, hr⟩ := p
  rcases s with _ | ⟨tr, tc⟩ <;> rcases b with _ | ⟨bm, be, bt⟩
  all_goals
    try (rcases bm with _ | l1 <;> rcases be with _ | l2 <;> rcases bt with _ | l3)
  all_goals
    simp [importMerge, payloadTotalRequests, payloadTotalToolCalls,
      payloadByMethod, payloadByEndpoint, payloadByTool]

theorem sumForKey_nonneg (l : List (String × Int)) (k : String)
    (h : ∀ kv ∈ l, 0 ≤ kv.2) : 0 ≤ sumForKey l k := by
  induction l with
  | nil => simp [sumForKey]
  | cons kv l ih =>
      have h1 : 0 ≤ kv.2 := h kv (by simp)
      have h2 : 0 ≤ sumForKey l k := ih (fun x hx => h x (by simp [hx]))
      by_cases hk : kv.1 = k <;> simp [sumForKey, hk] <;> omega

theorem contains_filter_ne (reg : List String) (sid : String) :
    (reg.filter (fun k => k ≠ sid)).contains sid = false := by
  induction reg with
  | nil => rfl
  | cons x xs ih =>
      by_cases hx : x = sid
      · simp [List.filter_cons, hx, ih]
      · have hx2 : ¬sid = x := fun h => hx h.symm
        simp [List.filter_cons, hx, hx2, ih]

theorem trackToolCall_length_le (tool : String) (req : Req) (now : String)
    (a : Analytics) (h : a.recentToolCalls.length ≤ MAX_RECENT_CALLS) :
    (trackToolCall tool req now a).recentToolCalls.length ≤ MAX_RECENT_CALLS := by
  simp only [trackToolCall]
  split
  · simpa using h
  · next hgt => omega


theorem bump_nonneg (m : String → Int) (key : String) (h : ∀ k, 0 ≤ m k) :
    ∀ k, 0 ≤ bump m key k := by
  intro k
  have h1 := h key
  have h2 := h k
  by_cases hk : k = key <;> simp [bump, hk] <;> omega

theorem mergeEntries_nonneg (m : String → Int) (l : List (String × Int))
    (hm : ∀ k, 0 ≤ m k) (hl : ∀ kv ∈ l, 0 ≤ kv.2) :
    ∀ k, 0 ≤ mergeEntries m l k := by
  intro k
  rw [mergeEntries_apply]
  have hs := sumForKey_nonneg l k hl
  have hk := hm k
  omega

theorem defaultNonNeg (t : String) : CountersNonNeg (defaultAnalytics t) :=
  ⟨le_refl 0, le_refl 0, fun _ => le_refl 0, fun _ => le_refl 0,
   fun _ => le_refl 0, fun _ => le_refl 0, fun _ => le_refl 0, fun _ => le_refl 0⟩

theorem onePayloadNonNeg : PayloadNonNeg onePayload := by
  refine ⟨?_, ?_, ?_, ?_, ?_⟩ <;>
    simp [onePayload, payloadTotalRequests, payloadTotalToolCalls,
      payloadByMethod, payloadByEndpoint, payloadByTool]

/-- C1 (counterexample): importing an exported snapshot that carries
client-IP, user-agent and hour-bucket counts leaves those three counter
families untouched — they are not summed as the claim states. -/
theorem importMerge_ignores_client_counters_cex :
    (importMerge (defaultAnalytics "t0") clientsOnlyPayload).clientsByIp "203.0.113.7"
        ≠ (defaultAnalytics "t0").clientsByIp "203.0.113.7" + 5 ∧
    (importMerge (defaultAnalytics "t0") clientsOnlyPayload).clientsByUserAgent "curl/8.4.0"
        ≠ (defaultAnalytics "t0").clientsByUserAgent "curl/8.4.0" + 4 ∧
    (importMerge (defaultAnalytics "t0") clientsOnlyPayload).hourlyRequests "2026-02-03T04"
        ≠ (defaultAnalytics "t0").hourlyRequests "2026-02-03T04" + 3 := by
  refine ⟨?_, ?_, ?_⟩ <;> decide

/-- C1 (amended): the import merge additively folds the payload's total
requests, total tool calls, by-method, by-endpoint and by-tool counters into
the accumulator — summing, never overwriting — while the counts keyed by
client IP, by user-agent and by hour bucket (and the recent-calls list) are
left unchanged. -/
theorem importMerge_additive_on_merged_families (a : Analytics) (p : ImportPayload) :
    (importMerge a p).totalRequests = a.totalRequests + payloadTotalRequests p ∧
    (importMerge a p).totalToolCalls = a.totalToolCalls + payloadTotalToolCalls p ∧
    (∀ k, (importMerge a p).requestsByMethod k
        = a.requestsByMethod k + sumForKey (payloadByMethod p) k) ∧
    (∀ k, (importMerge a p).requestsByEndpoint k
        = a.requestsByEndpoint k + sumForKey (payloadByEndpoint p) k) ∧
    (∀ k, (importMerge a p).toolCalls k
        = a.toolCalls k + sumForKey (payloadByTool p) k) ∧
    (importMerge a p).clientsByIp = a.clientsByIp ∧
    (importMerge a p).clientsByUserAgent = a.clientsByUserAgent ∧
    (importMerge a p).hourlyRequests = a.hourlyRequests ∧
    (importMerge a p).recentToolCalls = a.recentToolCalls := by
  rw [importMerge_eq]
  exact ⟨rfl, rfl, fun k => mergeEntries_apply _ _ k,
    fun k => mergeEntries_apply _ _ k, fun k => mergeEntries_apply _ _ k,
    rfl, rfl, rfl, rfl⟩

/-- C2 (counterexample): the import handler does not validate the payload,
so importing a negative total drives a counter negative — the non-negativity
invariant is not preserved for every possible input payload. -/
theorem importMerge_negative_payload_cex :
    CountersNonNeg (defaultAnalytics "t0") ∧
    ¬CountersNonNeg (importMerge (defaultAnalytics "t0") negPayload) := by
  refine ⟨defaultNonNeg "t0", fun h => ?_⟩
  have h1 := h.1
  rw [importMerge_eq] at h1
  simp [payloadTotalRequests, negPayload, defaultAnalytics] at h1

/-- C2 (amended): every counter stays non-negative under `trackRequest` and
`trackToolCall` unconditionally, and under the import merge whenever the
imported counter values are themselves non-negative. -/
theorem counters_nonneg_preserved :
    (∀ req endpoint now a, CountersNonNeg a →
        CountersNonNeg (trackRequest req endpoint now a)) ∧
    (∀ tool req now a, CountersNonNeg a →
        CountersNonNeg (trackToolCall tool req now a)) ∧
    (∀ a p, CountersNonNeg a → PayloadNonNeg p →
        CountersNonNeg (importMerge a p)) := by
  refine ⟨?_, ?_, ?_⟩
  · rintro req endpoint now a ⟨h1, h2, h3, h4, h5, h6, h7, h8⟩
    unfold CountersNonNeg trackRequest
    dsimp only
    exact ⟨by omega, h2,
      bump_nonneg _ _ h3, bump_nonneg _ _ h4, h5,
      bump_nonneg _ _ h6, bump_nonneg _ _ h7, bump_nonneg _ _ h8⟩
  · rintro tool req now a ⟨h1, h2, h3, h4, h5, h6, h7, h8⟩
    unfold CountersNonNeg trackToolCall
    dsimp only
    exact ⟨h1, by omega, h3, h4,
      bump_nonneg _ _ h5, h6, h7, h8⟩
  · rintro a p ⟨h1, h2, h3, h4, h5, h6, h7, h8⟩ ⟨q1, q2, q3, q4, q5⟩
    rw [importMerge_eq]
    refine ⟨?_, ?_, mergeEntries_nonneg _ _ h3 q3, mergeEntries_nonneg _ _ h4 q4,
      mergeEntries_nonneg _ _ h5 q5, h6, h7, h8⟩
    · show (0 : Int) ≤ a.totalRequests + payloadTotalRequests p
      omega
    · show (0 : Int) ≤ a.totalToolCalls + payloadTotalToolCalls p
      omega

/-- C2 (witness): the amended preservation applied at concrete inputs. -/
theorem counters_nonneg_preserved_witness :
    CountersNonNeg
      (trackRequest req0 "/mcp" "2026-02-03T04:05:06.000Z" (defaultAnalytics "t0")) ∧
    CountersNonNeg
      (trackToolCall "web_search_exa" req0 "2026-02-03T04:05:06.000Z" (defaultAnalytics "t0")) ∧
    CountersNonNeg (importMerge (defaultAnalytics "t0") onePayload) :=
  ⟨counters_nonneg_preserved.1 req0 "/mcp" "2026-02-03T04:05:06.000Z"
      (defaultAnalytics "t0") (defaultNonNeg "t0"),
   counters_nonneg_preserved.2.1 "web_search_exa" req0 "2026-02-03T04:05:06.000Z"
      (defaultAnalytics "t0") (defaultNonNeg "t0"),
   counters_nonneg_preserved.2.2 (defaultAnalytics "t0") onePayload
      (defaultNonNeg "t0") onePayloadNonNeg⟩

/-- C6: merging snapshot A and then B into any accumulator state yields
exactly the same state as merging B and then A — the import merge is
commutative (and, the sums being pointwise, associative) on counters. -/
theorem importMerge_comm (a : Analytics) (A B : ImportPayload) :
    importMerge (importMerge a A) B = importMerge (importMerge a B) A := by
  rw [importMerge_eq a A, importMerge_eq a B, importMerge_eq, importMerge_eq]
  refine Analytics.ext rfl ?_ ?_ ?_ ?_ ?_ rfl rfl rfl rfl
  · show a.totalRequests + payloadTotalRequests A + payloadTotalRequests B
        = a.totalRequests + payloadTotalRequests B + payloadTotalRequests A
    omega
  · show a.totalToolCalls + payloadTotalToolCalls A + payloadTotalToolCalls B
        = a.totalToolCalls + payloadTotalToolCalls B + payloadTotalToolCalls A
    omega
  · funext k
    simp only [mergeEntries_apply]
    omega
  · funext k
    simp only [mergeEntries_apply]
    omega
  · funext k
    simp only [mergeEntries_apply]
    omega

/-- C7: writing the snapshot to the durable file and rehydrating it on a
fresh process reproduces every counter (and the recent-calls list) exactly;
only the timestamp field is subject to re-defaulting. -/
theorem analytics_save_load_roundtrip (a : Analytics) (now : String) :
    ((loadAnalytics (some (saveAnalytics a)) now (defaultAnalytics now)).totalRequests
        = a.totalRequests) ∧
    ((loadAnalytics (some (saveAnalytics a)) now (defaultAnalytics now)).totalToolCalls
        = a.totalToolCalls) ∧
    ((loadAnalytics (some (saveAnalytics a)) now (defaultAnalytics now)).requestsByMethod
        = a.requestsByMethod) ∧
    ((loadAnalytics (some (saveAnalytics a)) now (defaultAnalytics now)).requestsByEndpoint
        = a.requestsByEndpoint) ∧
    ((loadAnalytics (some (saveAnalytics a)) now (defaultAnalytics now)).toolCalls
        = a.toolCalls) ∧
    ((loadAnalytics (some (saveAnalytics a)) now (defaultAnalytics now)).clientsByIp
        = a.clientsByIp) ∧
    ((loadAnalytics (some (saveAnalytics a)) now (defaultAnalytics now)).clientsByUserAgent
        = a.clientsByUserAgent) ∧
    ((loadAnalytics (some (saveAnalytics a)) now (defaultAnalytics now)).hourlyRequests
        = a.hourlyRequests) ∧
    ((loadAnalytics (some (saveAnalytics a)) now (defaultAnalytics now)).recentToolCalls
        = a.recentToolCalls) :=
  ⟨rfl, rfl, rfl, rfl, rfl, rfl, rfl, rfl, rfl⟩

/-- C3: a GET on `/mcp` whose session id is absent or not registered answers
400, and a GET never changes the registry — in particular it never creates a
session. -/
theorem mcpGet_unknown_session_400 :
    (∀ reg : List String, mcpGet reg none = (some 400, reg)) ∧
    (∀ (reg : List String) (sid : String), reg.contains sid = false →
        mcpGet reg (some sid) = (some 400, reg)) ∧
    (∀ (reg : List String) (sessionId : Option String),
        (mcpGet reg sessionId).2 = reg) := by
  refine ⟨fun reg => rfl, ?_, ?_⟩
  · intro reg sid h
    simp only [mcpGet]
    rw [if_pos (Or.inr h)]
  · intro reg sessionId
    rcases sessionId with _ | sid
    · rfl
    · simp only [mcpGet]
      split <;> rfl

/-- C3 (witness): a GET bearing an id absent from a concrete registry. -/
theorem mcpGet_unknown_session_400_witness :
    mcpGet ["exa-1-abc"] (some "exa-2-def") = (some 400, ["exa-1-abc"]) :=
  mcpGet_unknown_session_400.2.1 ["exa-1-abc"] "exa-2-def" (by decide)

/-- C4: a DELETE on `/mcp` with an absent or unknown session id answers 204
and leaves the registry unchanged, and deleting the same id a second time
after a successful close is again a 204 no-op — deletion is idempotent. -/
theorem mcpDelete_idempotent_noop :
    (∀ reg : List String, mcpDelete reg none = (204, reg)) ∧
    (∀ (reg : List String) (sid : String), reg.contains sid = false →
        mcpDelete reg (some sid) = (204, reg)) ∧
    (∀ (reg : List String) (sid : String),
        mcpDelete ((mcpDelete reg (some sid)).2) (some sid)
          = (204, (mcpDelete reg (some sid)).2)) := by
  refine ⟨fun reg => rfl, ?_, ?_⟩
  · intro reg sid h
    simp only [mcpDelete]
    rw [if_neg (fun hcond => by rw [hcond.2] at h; cases h)]
  · intro reg sid
    by_cases hsid : sid = ""
    · subst hsid
      have h1 : mcpDelete reg (some "") = (204, reg) := by
        simp only [mcpDelete]
        rw [if_neg (fun hcond => hcond.1 rfl)]
      rw [h1]
      exact h1
    · by_cases hc : reg.contains sid = true
      · have h1 : mcpDelete reg (some sid)
            = (204, reg.filter (fun k => k ≠ sid)) := by
          simp only [mcpDelete]
          rw [if_pos ⟨hsid, hc⟩]
        rw [h1]
        simp only [mcpDelete]
        rw [if_neg (fun hcond => by
          have h2 := contains_filter_ne reg sid
          rw [hcond.2] at h2
          cases h2)]
      · have h1 : mcpDelete reg (some sid) = (204, reg) := by
          simp only [mcpDelete]
          rw [if_neg (fun hcond => hc hcond.2)]
        rw [h1]
        exact h1

/-- C4 (witness): deleting an id absent from a concrete registry. -/
theorem mcpDelete_idempotent_noop_witness :
    mcpDelete ["exa-1-abc"] (some "exa-9-zzz") = (204, ["exa-1-abc"]) :=
  mcpDelete_idempotent_noop.2.1 ["exa-1-abc"] "exa-9-zzz" (by decide)

/-- C5: starting from any state within the cap, every sequence of
`trackToolCall` events keeps `recentToolCalls` at length at most
`MAX_RECENT_CALLS`; each new call is prepended (newest first), and when the
cap would be exceeded the tail entry — the oldest — is the one evicted. -/
theorem recentToolCalls_bounded_newest_first
    (a : Analytics) (events : List (String × Req × String))
    (h : a.recentToolCalls.length ≤ MAX_RECENT_CALLS) :
    (applyToolCalls a events).recentToolCalls.length ≤ MAX_RECENT_CALLS ∧
    (∀ tool req now,
      (trackToolCall tool req now a).recentToolCalls.head? =
        some { tool := tool, timestamp := now, clientIp := resolveClientIp req,
               userAgent := resolveUserAgent req }) ∧
    (∀ tool req now, a.recentToolCalls.length = MAX_RECENT_CALLS →
      (trackToolCall tool req now a).recentToolCalls =
        { tool := tool, timestamp := now, clientIp := resolveClientIp req,
          userAgent := resolveUserAgent req } :: a.recentToolCalls.dropLast) := by
  refine ⟨?_, ?_, ?_⟩
  · induction events generalizing a with
    | nil => exact h
    | cons e rest ih => exact ih _ (trackToolCall_length_le _ _ _ _ h)
  · intro tool req now
    cases hrec : a.recentToolCalls with
    | nil => simp [trackToolCall, hrec, MAX_RECENT_CALLS]
    | cons y ys =>
        simp only [trackToolCall, hrec]
        split
        · simp [List.dropLast_cons₂]
        · simp
  · intro tool req now hlen
    cases hrec : a.recentToolCalls with
    | nil =>
        rw [hrec] at hlen
        simp [MAX_RECENT_CALLS] at hlen
    | cons y ys =>
        have hlen2 : (y :: ys).length = MAX_RECENT_CALLS := by
          rw [← hrec]; exact hlen
        simp only [trackToolCall, hrec]
        rw [if_pos (by simp at hlen2 ⊢; omega)]
        simp [List.dropLast_cons₂]

/-- C5 (witness): one further call on a registry already at the cap. -/
theorem recentToolCalls_bounded_newest_first_witness :
    (applyToolCalls a100
      [("web_search_exa", req0, "2026-02-03T04:05:06.000Z")]).recentToolCalls.length
      ≤ MAX_RECENT_CALLS :=
  (recentToolCalls_bounded_newest_first a100
    [("web_search_exa", req0, "2026-02-03T04:05:06.000Z")]
    (by simp [a100, defaultAnalytics, MAX_RECENT_CALLS])).1

/-- C8: the session API key is resolved exactly by the spec's precedence —
the first present-and-non-empty source among the `apiKey` query parameter,
the `x-api-key` header and the process-environment default wins. -/
theorem getApiKey_precedence (queryApiKey headerKey envKey : Option String) :
    getApiKey queryApiKey headerKey envKey
      = getApiKeySpec queryApiKey headerKey envKey := by
  rcases queryApiKey with _ | q <;> rcases headerKey with _ | h <;>
    rcases envKey with _ | e <;>
      simp only [getApiKey, getApiKeySpec, firstNonEmpty, Option.getD_some,
        Option.getD_none] <;>
      split_ifs <;> simp_all [firstNonEmpty]

/-- C9: with a configured non-empty allow-list, membership in the list is
the registration decision; with no (or an empty) allow-list, a tool is
registered exactly when it is one of the default-enabled tool ids. -/
theorem shouldRegisterTool_policy :
    (∀ (ts : List String) (toolId : String), ts ≠ [] →
        shouldRegisterTool (some ts) toolId = ts.contains toolId) ∧
    (∀ toolId : String,
        (shouldRegisterTool none toolId = true ↔ toolId ∈ availableToolIds)) ∧
    (∀ toolId : String,
        shouldRegisterTool (some []) toolId = shouldRegisterTool none toolId) := by
  refine ⟨?_, ?_, fun toolId => rfl⟩
  · intro ts toolId hts
    have hlen : ts.length > 0 := List.length_pos.mpr hts
    simp [shouldRegisterTool, hlen]
  · intro toolId
    simp only [shouldRegisterTool, availableTools, availableToolIds]
    split_ifs <;> simp_all

/-- C9 (witness): with an allow-list of just `web_search_exa`, the decision
for `deep_search_exa` is exactly list membership (hence false, although the
tool's default-enabled flag is true). -/
theorem shouldRegisterTool_policy_witness :
    shouldRegisterTool (some ["web_search_exa"]) "deep_search_exa"
      = List.contains ["web_search_exa"] "deep_search_exa" :=
  shouldRegisterTool_policy.1 ["web_search_exa"] "deep_search_exa" (by decide)

/-- C10 (counterexample): with `ANALYTICS_IMPORT_KEY` set to the empty
string and a mismatching `key` query parameter, the handler does not answer
403 — it merges (mutating the accumulator), saves and answers 200, because
the guard tests truthiness, not presence. -/
theorem analyticsImport_empty_key_cex :
    (analyticsImport (some "") (some "wrong") onePayload (defaultAnalytics "t0")).1
        = 200 ∧
    (analyticsImport (some "") (some "wrong") onePayload
        (defaultAnalytics "t0")).2.1.totalRequests = 1 ∧
    (analyticsImport (some "") (some "wrong") onePayload
        (defaultAnalytics "t0")).2.2 = true := by
  refine ⟨?_, ?_, ?_⟩ <;> decide

/-- C10 (amended): whenever `ANALYTICS_IMPORT_KEY` is set to a non-empty
value and the request's `key` query parameter differs from it, the import
answers 403, the accumulator state is returned completely unchanged, and no
save occurs. -/
theorem analyticsImport_mismatched_key_403 (ek : String) (importKey : Option String)
    (p : ImportPayload) (a : Analytics) (hek : ek ≠ "")
    (hne : importKey ≠ some ek) :
    analyticsImport (some ek) importKey p a = (403, a, false) := by
  simp [analyticsImport, hek, hne]

/-- C10 (witness): a concrete mismatched key against a concrete state. -/
theorem analyticsImport_mismatched_key_403_witness :
    analyticsImport (some "secret") (some "wrong") onePayload (defaultAnalytics "t0")
      = (403, defaultAnalytics "t0", false) :=
  analyticsImport_mismatched_key_403 "secret" (some "wrong") onePayload
    (defaultAnalytics "t0") (by decide) (by decide)
